import Mathlib

/-!
# Verification of the mcp-hub orchestration core

Shallow embedding of `src/mcp_hub/backend.py` (the orchestration core of the
mcp-hub gateway): the namespaced tool registry (`MCPClient.list_all_tools`,
the per-dispatch schema build), the two-phase query dispatcher
(`MCPClient.process_query`), the response normalizer and reasoning-marker
stripper of `chat_endpoint` / `remove_reasoning_thoughts`, and the batch
config loader `upload_config`.

External capabilities (the model provider client, the per-server MCP
sessions, and Python runtime functions such as `json.loads`) are modelled as
oracle fields of an explicit environment record; Python exceptions are
modelled with `Except`, and the side effects a dispatch performs (model
calls, tool invocations) are returned as an explicit trace so that claims
such as "the model capability is invoked exactly once" are statable.
-/

namespace MCPHub

/-! ## Python-level values and exceptions -/

/-- A Python value as far as the response normalizer cares: `None`, a string,
a dict, or a list.  Mirrors the duck-typed `message` value flowing through
the endpoint `chat_endpoint` (backend.py lines 280-311). -/
inductive PyVal where
  | none
  | str (s : String)
  | dict (d : List (String × PyVal))
  | list (l : List PyVal)

/-- Python exceptions that the embedded code can raise.  In the source these
propagate out of `process_query` and are caught by the `try`/`except` of
`chat_endpoint`, which turns them into an HTTP 500 error body. -/
inductive PyExc where
  /-- `session.list_tools()` raised inside tool enumeration (server name, message). -/
  | listToolsError (server : String) (msg : String)
  /-- `json.loads` raised on a malformed tool-argument payload (backend.py line 142). -/
  | jsonDecodeError (msg : String)
  /-- `session.call_tool` raised (backend.py line 150). -/
  | callToolError (msg : String)
  /-- `server_name, tool_name = full.split(":", 1)` raised because the
  namespaced identifier contains no separator (unpacking a 1-element list). -/
  | valueError
  /-- `messages[-1]` on an empty message list (backend.py line 159). -/
  | indexError
  /-- `.get` called on a non-dict block in the list branch of the normalizer. -/
  | attributeError
  /-- `"\n".join` applied to a non-string reasoning block. -/
  | typeError
deriving Repr, DecidableEq

/-! ## Namespaced tool identifiers

backend.py line 107 formats `f"{name}:{tool.name}"`; line 141 parses with
`full_tool_name.split(":", 1)` and tuple unpacking. -/

/-- Split a character list at the first `':'`.  Returns the part before and
the part after; `none` when no `':'` occurs. -/
def splitFirstColonList : List Char → Option (List Char × List Char)
  | [] => Option.none
  | c :: cs =>
    if c = ':' then Option.some ([], cs)
    else (splitFirstColonList cs).map (fun p => (c :: p.1, p.2))

/-- `server_name, tool_name = full_tool_name.split(":", 1)` (backend.py
line 141).  The two-way unpacking in Python raises `ValueError` when the
separator is absent (`split` then yields a single element). -/
def splitToolId (full : String) : Except PyExc (String × String) :=
  match splitFirstColonList full.data with
  | Option.none => Except.error PyExc.valueError
  | Option.some (a, b) => Except.ok (⟨a⟩, ⟨b⟩)

/-- `f"{name}:{tool.name}"` (backend.py line 107): the namespaced identifier. -/
def formatToolId (server tool : String) : String :=
  server ++ ":" ++ tool

/-! ## The reasoning-marker stripper `remove_reasoning_thoughts`

backend.py lines 239-263: nine `re.sub(pattern, "", text, flags=re.DOTALL)`
passes, then `re.sub(r"\n\x7b2,\x7d", "\n\n", ...)` and `.strip()`.  Each
regex is simple enough that its `re.sub` behaviour is a direct left-to-right
scan, which we implement on `List Char` (with a fuel argument bounding the
scan by the input length to make the recursion structural). -/

/-- Does `pat` occur as a literal prefix of `s`?  When it does, return the
remainder of `s` after the prefix. -/
def matchLit : List Char → List Char → Option (List Char)
  | [], s => Option.some s
  | _ :: _, [] => Option.none
  | p :: ps, c :: cs => if p = c then matchLit ps cs else Option.none

/-- Case-insensitive variant of `matchLit` (for the `(?i)` patterns); the
`re.IGNORECASE` flag on ASCII letters is folding to lower case. -/
def matchLitCI : List Char → List Char → Option (List Char)
  | [], s => Option.some s
  | _ :: _, [] => Option.none
  | p :: ps, c :: cs => if p.toLower = c.toLower then matchLitCI ps cs else Option.none

/-- Try a list of alternative literal patterns in order (regex alternation
order, longest first where one is a prefix of another, matching the greedy
`?` quantifier). -/
def matchAlts (alts : List (List Char)) (s : List Char) : Option (List Char) :=
  match alts with
  | [] => Option.none
  | a :: rest =>
    match matchLit a s with
    | Option.some r => Option.some r
    | Option.none => matchAlts rest s

/-- Find the earliest position at which one of `closes` matches; return the
remainder after that match (the non-greedy `.*?close` search, DOTALL). -/
def findClose (closes : List (List Char)) : List Char → Option (List Char)
  | [] => Option.none
  | c :: cs =>
    match matchAlts closes (c :: cs) with
    | Option.some r => Option.some r
    | Option.none => findClose closes cs

/-- One `re.sub(open.*?close, "", s, flags=re.DOTALL)` pass: scan left to
right; at a position where an `opens` alternative matches and a later
`closes` alternative exists, drop through the end of the earliest close and
continue after it; otherwise keep the character.  `fuel` bounds the scan
(instantiated with the input length, which suffices since every step
consumes at least one character). -/
def removeDelimitedFuel (opens closes : List (List Char)) : Nat → List Char → List Char
  | 0, s => s
  | _ + 1, [] => []
  | fuel + 1, c :: cs =>
    match matchAlts opens (c :: cs) with
    | Option.some afterOpen =>
      match findClose closes afterOpen with
      | Option.some afterClose => removeDelimitedFuel opens closes fuel afterClose
      | Option.none => c :: removeDelimitedFuel opens closes fuel cs
    | Option.none => c :: removeDelimitedFuel opens closes fuel cs

/-- Entry point of the delimited-span pass on a character list. -/
def removeDelimited (opens closes : List (List Char)) (s : List Char) : List Char :=
  removeDelimitedFuel opens closes s.length s

/-- One `re.sub((?i)marker:?[^*\n]*, "", s)` pass (the `**Thought` /
`*Reasoning` markdown patterns): at a case-insensitive occurrence of
`marker`, also consume an optional `':'` and then every character other
than `'*'` and newline, and continue scanning after the consumed span. -/
def removeMarkerLineFuel (marker : List Char) : Nat → List Char → List Char
  | 0, s => s
  | _ + 1, [] => []
  | fuel + 1, c :: cs =>
    match matchLitCI marker (c :: cs) with
    | Option.some afterMarker =>
      let afterColon := match afterMarker with
        | ':' :: r => r
        | r => r
      removeMarkerLineFuel marker fuel (afterColon.dropWhile (fun d => d != '*' && d != '\n'))
    | Option.none => c :: removeMarkerLineFuel marker fuel cs

/-- Entry point of the marker-line pass. -/
def removeMarkerLine (marker : List Char) (s : List Char) : List Char :=
  removeMarkerLineFuel marker s.length s

/-- Case-insensitive variant of `matchAlts`. -/
def matchAltsCI (alts : List (List Char)) (s : List Char) : Option (List Char) :=
  match alts with
  | [] => Option.none
  | a :: rest =>
    match matchLitCI a s with
    | Option.some r => Option.some r
    | Option.none => matchAltsCI rest s

/-- One `re.sub((?i)(?:marker).*, "", s, flags=re.DOTALL)` pass (the
step-by-step reasoning intros and "thinking process:" patterns): with
DOTALL, `.*` runs to the end of the string, so the pass truncates the text
at the first case-insensitive occurrence of a marker alternative. -/
def truncateAtCI (markers : List (List Char)) : List Char → List Char
  | [] => []
  | c :: cs =>
    if (matchAltsCI markers (c :: cs)).isSome then []
    else c :: truncateAtCI markers cs

/-- `re.sub(r"\n\x7b2,\x7d", "\n\n", s)`: collapse every run of two or more
newlines to exactly two.  `n` counts the consecutive newlines already seen. -/
def collapseNewlinesGo : Nat → List Char → List Char
  | _, [] => []
  | n, c :: cs =>
    if c = '\n' then
      if n ≥ 2 then collapseNewlinesGo (n + 1) cs
      else '\n' :: collapseNewlinesGo (n + 1) cs
    else c :: collapseNewlinesGo 0 cs

/-- Python `str.strip()` whitespace set (ASCII). -/
def isPySpace (c : Char) : Bool :=
  c = ' ' || c = '\t' || c = '\n' || c = '\r' || c = '\x0b' || c = '\x0c'

/-- Python `str.strip()`: drop leading and trailing whitespace. -/
def stripList (s : List Char) : List Char :=
  ((s.dropWhile isPySpace).reverse.dropWhile isPySpace).reverse

/-- The ASCII apostrophe character (the straight quote in the regex
apostrophe class). -/
def asciiApos : Char := Char.ofNat 39

/-- The typographic right single quotation mark, U+2019 (the curly quote in
the regex apostrophe class). -/
def curlyApos : Char := Char.ofNat 0x2019

/-- The two alternatives of a step-by-step intro marker such as
`let<apos>s reason step by step:`, one per apostrophe-class character. -/
def stepMarkerAlts (verb : String) : List (List Char) :=
  ["let".data ++ [asciiApos] ++ ("s " ++ verb ++ " step by step:").data,
   "let".data ++ [curlyApos] ++ ("s " ++ verb ++ " step by step:").data]

/-- `remove_reasoning_thoughts` (backend.py lines 239-263) on a string:
apply the nine regex-removal passes in source order, then collapse newline
runs and strip.  Patterns 1-4 are delimited spans (case-sensitive), 5-6 are
case-insensitive markdown marker lines, 7-9 are case-insensitive
truncate-to-end markers (the apostrophe class gives two alternatives
each). -/
def remove_reasoning_thoughts (text : String) : String :=
  let s1 := removeDelimited ["<think>".data] ["</think>".data] text.data
  let s2 := removeDelimited ["<thinking>".data] ["</thinking>".data] s1
  let s3 := removeDelimited ["[Reasoning]".data] ["[/Reasoning]".data] s2
  let s4 := removeDelimited ["[Thoughts]".data, "[Thought]".data]
      ["[/Thoughts]".data, "[/Thought]".data] s3
  let s5 := removeMarkerLine "**Thought".data s4
  let s6 := removeMarkerLine "*Reasoning".data s5
  let s7 := truncateAtCI (stepMarkerAlts "reason") s6
  let s8 := truncateAtCI (stepMarkerAlts "think") s7
  let s9 := truncateAtCI ["thinking process:".data] s8
  ⟨stripList (collapseNewlinesGo 0 s9)⟩

/-- `remove_reasoning_thoughts` at the Python level: the
`if not isinstance(text, str): return text` guard makes the function the
identity on non-string values. -/
def remove_reasoning_thoughts_val : PyVal → PyVal
  | PyVal.str s => PyVal.str (remove_reasoning_thoughts s)
  | v => v

/-! ## The MCP client state and external capabilities

`MCPClient` holds `self.sessions : Dict[str, ClientSession]` (insertion
ordered) and `self.active_servers` (whose values are `True` or a status
dict — both truthy; the embedding keeps only the truthiness actually tested
by `self.active_servers.get(name, False)`).  A `ClientSession` and the
model-provider client are external capabilities: we model them as oracles
recording what each call would return (or raise). -/

/-- One tool as reported by `session.list_tools()`: `name`, `description`,
`inputSchema` (opaque, passed through unmodified — kept as a string). -/
structure ToolInfo where
  name : String
  description : String
  inputSchema : String
deriving Repr, DecidableEq

/-- The result object of `session.call_tool`: `structuredContent` models the
`hasattr(tool_result, "structuredContent")`-guarded optional dict, and `raw`
is the string interpolation of the raw result object (used when no
structured `result` field is present). -/
structure ToolResult where
  structuredContent : Option (List (String × String))
  raw : String
deriving Repr, DecidableEq

/-- An MCP `ClientSession` as an oracle: what `list_tools()` returns or
raises, and what `call_tool(tool_name, tool_args)` returns or raises. -/
structure Session where
  listToolsResult : Except String (List ToolInfo)
  callToolResult : String → String → Except String ToolResult

/-- One entry of the OpenAI function-calling schema built per dispatch
(backend.py lines 104-111): `name` is the namespaced identifier,
`parameters` is the passed-through input schema. -/
structure FunctionSpec where
  name : String
  description : String
  parameters : String
deriving Repr, DecidableEq

/-- One entry of `list_all_tools()` (backend.py lines 83-87). -/
structure ToolDescriptor where
  server : String
  tool_name : String
  description : String
deriving Repr, DecidableEq

/-- A chat turn `{role, content}` as supplied by the caller. -/
structure ChatTurn where
  role : String
  content : String
deriving Repr, DecidableEq

/-- The `function` field of an OpenAI tool call: the namespaced tool `name`
and the JSON-encoded `arguments` payload. -/
structure ToolCallFunction where
  name : String
  arguments : String
deriving Repr, DecidableEq

/-- One tool call in a model reply. -/
structure ToolCall where
  function : ToolCallFunction
deriving Repr, DecidableEq

/-- The Phase-1 reply message `completion.choices[0].message`: `content` is
a string or `None`; `tool_calls` is the list of requested tool invocations
(`None` and `[]` are both falsy in Python, so the empty list models both). -/
structure ChatMessage where
  content : Option String
  tool_calls : List ToolCall
deriving Repr, DecidableEq

/-- The environment of one dispatch: the client state plus the external
capabilities it consumes.  `jsonLoads` models the Python runtime function
`json.loads` (success yields the parsed payload, kept opaque as a string;
failure is `json.JSONDecodeError`); `phase1` is the message the model
capability returns to the first (tool-choice) call, and `phase2Content` the
`message.content` it returns to the second (summarization) call, as a
function of that call prompt. -/
structure Env where
  sessions : List (String × Session)
  activeTruthy : String → Bool
  jsonLoads : String → Except String String
  phase1 : ChatMessage
  phase2Content : String → Option String

/-- `self.sessions.get(server_name)` (backend.py line 146). -/
def getSession (env : Env) (name : String) : Option Session :=
  (env.sessions.find? (fun p => p.1 == name)).map (fun p => p.2)

/-- Truthiness of `msg.content` (a string or `None`): `None` and the empty
string are falsy. -/
def contentTruthy : Option String → Bool
  | Option.none => false
  | Option.some s => !s.isEmpty

/-! ## Tool enumeration -/

/-- Loop body of `list_all_tools` (backend.py lines 77-88): iterate the
session map in insertion order, skip entries whose active flag is falsy,
query each remaining session for its catalog and flatten.  A raising
`session.list_tools()` aborts the whole loop: the exception propagates. -/
def listAllToolsGo (active : String → Bool) :
    List (String × Session) → Except PyExc (List ToolDescriptor)
  | [] => Except.ok []
  | (n, s) :: rest =>
    if active n then
      match s.listToolsResult with
      | Except.error e => Except.error (PyExc.listToolsError n e)
      | Except.ok tools =>
        match listAllToolsGo active rest with
        | Except.error e => Except.error e
        | Except.ok restDescs =>
          Except.ok (tools.map (fun t => ⟨n, t.name, t.description⟩) ++ restDescs)
    else listAllToolsGo active rest

/-- `MCPClient.list_all_tools` (backend.py lines 72-88). -/
def list_all_tools (env : Env) : Except PyExc (List ToolDescriptor) :=
  listAllToolsGo env.activeTruthy env.sessions

/-- The per-dispatch schema build (backend.py lines 98-111): same traversal
as `list_all_tools`, but formatted as OpenAI function specs with namespaced
names.  A raising `session.list_tools()` likewise aborts the dispatch. -/
def buildSchemaGo (active : String → Bool) :
    List (String × Session) → Except PyExc (List FunctionSpec)
  | [] => Except.ok []
  | (n, s) :: rest =>
    if active n then
      match s.listToolsResult with
      | Except.error e => Except.error (PyExc.listToolsError n e)
      | Except.ok tools =>
        match buildSchemaGo active rest with
        | Except.error e => Except.error e
        | Except.ok restSpecs =>
          Except.ok (tools.map
            (fun t => ⟨formatToolId n t.name, t.description, t.inputSchema⟩) ++ restSpecs)
    else buildSchemaGo active rest

/-- The schema available to Phase 1 of a dispatch. -/
def availableTools (env : Env) : Except PyExc (List FunctionSpec) :=
  buildSchemaGo env.activeTruthy env.sessions

/-! ## The two-phase dispatcher `MCPClient.process_query` -/

/-- The synthetic system turn appended (to the model call only, not the
stored history) before Phase 1 (backend.py lines 118-125). -/
def systemTurn : ChatTurn :=
  { role := "system",
    content := "Before answering, think step by step and explain: " ++
      "Do you need to call a tool? Which one and why? " ++
      "Then either call the tool or answer directly." }

/-- The observable external calls a dispatch performs, in order: a model
capability invocation (with the messages sent and, for Phase 1, the
attached function schema — Phase 2 attaches none), or a tool invocation on
a session. -/
inductive Effect where
  | modelCall (msgs : List ChatTurn) (tools : Option (List FunctionSpec))
  | toolInvoke (server : String) (tool : String) (args : String)
deriving Repr, DecidableEq

/-- Is this effect a tool invocation? -/
def Effect.isToolInvoke : Effect → Bool
  | Effect.toolInvoke _ _ _ => true
  | _ => false

/-- Is this effect a model capability invocation? -/
def Effect.isModelCall : Effect → Bool
  | Effect.modelCall _ _ => true
  | _ => false

/-- The dispatch result `{"text": ..., "tool_used": ...}`: `text` is a
string or `None` (the Phase-2 `message.content` can be `None`). -/
structure DispatchResult where
  text : Option String
  tool_used : Option String
deriving Repr, DecidableEq

/-- Extraction of a plain result value from a `call_tool` response
(backend.py lines 151-155): the structured `result` field when present,
else the raw response representation. -/
def extractResult (tr : ToolResult) : String :=
  match tr.structuredContent with
  | Option.some sc =>
    match sc.find? (fun p => p.1 == "result") with
    | Option.some p => p.2
    | Option.none => tr.raw
  | Option.none => tr.raw

/-- A one-character string holding the ASCII apostrophe. -/
def aposStr : String := ⟨[asciiApos]⟩

/-- The unknown-server error text of backend.py line 148: the f-string
interpolating the server name, which is quoted there with ASCII
apostrophes, between `Error: server ` and ` not connected.`. -/
def serverNotConnectedText (server : String) : String :=
  "Error: server " ++ aposStr ++ server ++ aposStr ++ " not connected."

/-- The Phase-2 prompt `final_prompt` (backend.py lines 158-162), with the
exact f-string layout: triple-quoted, so it opens with a newline and each
line carries the 12-space indentation of the source. -/
def finalPrompt (userQuestion toolResult : String) : String :=
  "\n            The user asked: \"" ++ userQuestion ++
  "\"\n            The tool returned: \"" ++ toolResult ++
  "\"\n            Please summarize and respond naturally.\n            "

/-- `MCPClient.process_query` (backend.py lines 93-172).  Returns the
outcome (a `DispatchResult`, or the Python exception that propagates to
`chat_endpoint`) together with the trace of external calls performed before
that outcome.

Control flow mirrors the source exactly: build the schema (a catalog
failure aborts before Phase 1); Phase-1 model call; Case 1 (truthy
`msg.content` and falsy `msg.tool_calls`) returns the content directly;
Case 2 (non-empty `msg.tool_calls`) takes only the head tool call, splits
its namespaced name on the first separator, parses its arguments with
`json.loads` *before* looking the server up, returns the unknown-server
error result when `sessions.get` misses, otherwise invokes the tool once
and issues the fresh single-turn Phase-2 call; the final fallthrough
returns the degenerate "No response from model." result. -/
def process_query (env : Env) (messages : List ChatTurn) :
    Except PyExc DispatchResult × List Effect :=
  match availableTools env with
  | Except.error e => (Except.error e, [])
  | Except.ok available_tools =>
    let phase1Call := Effect.modelCall (messages ++ [systemTurn]) (Option.some available_tools)
    let msg := env.phase1
    if contentTruthy msg.content && msg.tool_calls.isEmpty then
      (Except.ok { text := msg.content, tool_used := Option.none }, [phase1Call])
    else
      match msg.tool_calls with
      | tc :: _ =>
        match splitToolId tc.function.name with
        | Except.error e => (Except.error e, [phase1Call])
        | Except.ok (server_name, tool_name) =>
          match env.jsonLoads tc.function.arguments with
          | Except.error e => (Except.error (PyExc.jsonDecodeError e), [phase1Call])
          | Except.ok tool_args =>
            match getSession env server_name with
            | Option.none =>
              (Except.ok { text := Option.some (serverNotConnectedText server_name),
                           tool_used := Option.none }, [phase1Call])
            | Option.some session =>
              match session.callToolResult tool_name tool_args with
              | Except.error e =>
                (Except.error (PyExc.callToolError e),
                 [phase1Call, Effect.toolInvoke server_name tool_name tool_args])
              | Except.ok tool_result =>
                let result := extractResult tool_result
                match messages.getLast? with
                | Option.none =>
                  (Except.error PyExc.indexError,
                   [phase1Call, Effect.toolInvoke server_name tool_name tool_args])
                | Option.some lastTurn =>
                  let final_prompt := finalPrompt lastTurn.content result
                  (Except.ok { text := env.phase2Content final_prompt,
                               tool_used := Option.some (formatToolId server_name tool_name) },
                   [phase1Call, Effect.toolInvoke server_name tool_name tool_args,
                    Effect.modelCall [{ role := "user", content := final_prompt }] Option.none])
      | [] =>
        (Except.ok { text := Option.some "No response from model.",
                     tool_used := Option.none }, [phase1Call])

/-! ## The response normalizer and the chat pipeline

`chat_endpoint` (backend.py lines 267-321): run `process_query`, resolve the
duck-typed shape of the resulting `text` into a display message and a
reasoning value, strip reasoning markers from the display message, and
return the payload (which carries only the display content and the tool
identifier — the reasoning value is computed but never included). -/

/-- Python `dict.get(k)`: the stored value, or `None` when absent. -/
def pyDictGet (d : List (String × PyVal)) (k : String) : PyVal :=
  match d.find? (fun p => p.1 == k) with
  | Option.some p => p.2
  | Option.none => PyVal.none

/-- Python `dict.get(k, default)`. -/
def pyDictGetD (d : List (String × PyVal)) (k : String) (dflt : PyVal) : PyVal :=
  match d.find? (fun p => p.1 == k) with
  | Option.some p => p.2
  | Option.none => dflt

/-- Python `v in (s1, ..., sn)` where the tuple holds strings: true exactly
when `v` is a string equal to one of them. -/
def pyValIsStrIn (v : PyVal) (ss : List String) : Bool :=
  match v with
  | PyVal.str s => ss.contains s
  | _ => false

/-- The eager list comprehension collecting the reasoning blocks
(backend.py lines 290-294): every block has `.get` called on it, so a
non-dict block raises `AttributeError`; blocks whose `type` is one of
`reasoning`/`thinking`/`system` contribute `block.get("text", "")`. -/
def collectReasoningBlocks : List PyVal → Except PyExc (List PyVal)
  | [] => Except.ok []
  | b :: rest =>
    match b with
    | PyVal.dict d =>
      match collectReasoningBlocks rest with
      | Except.error e => Except.error e
      | Except.ok vs =>
        if pyValIsStrIn (pyDictGet d "type") ["reasoning", "thinking", "system"] then
          Except.ok (pyDictGetD d "text" (PyVal.str "") :: vs)
        else Except.ok vs
    | _ => Except.error PyExc.attributeError

/-- `"\n".join(reasoning_blocks)`: every element must be a string
(`TypeError` otherwise). -/
def joinBlocks : List PyVal → Except PyExc String
  | [] => Except.ok ""
  | [PyVal.str s] => Except.ok s
  | PyVal.str s :: v :: rest =>
    match joinBlocks (v :: rest) with
    | Except.error e => Except.error e
    | Except.ok r => Except.ok (s ++ "\n" ++ r)
  | _ => Except.error PyExc.typeError

/-- The lazy `next(...)` generator (backend.py lines 296-299): scan for the
first block whose `type` equals `output_text` and yield its
`block.get("text")` (which is `None` when the key is absent); fall back to
the whole original message when no block matches. -/
def findOutputText (orig : PyVal) : List PyVal → Except PyExc PyVal
  | [] => Except.ok orig
  | b :: rest =>
    match b with
    | PyVal.dict d =>
      if pyValIsStrIn (pyDictGet d "type") ["output_text"] then
        Except.ok (pyDictGet d "text")
      else findOutputText orig rest
    | _ => Except.error PyExc.attributeError

/-- The shape-resolution step of `chat_endpoint` (backend.py lines
281-299): returns the resolved display message and the reasoning value
(initialized to `None`; filled from `reasoning_content` for a mapping, from
the concatenated reasoning blocks for a block list). -/
def normalize_message (message : PyVal) : Except PyExc (PyVal × PyVal) :=
  match message with
  | PyVal.dict d =>
    Except.ok (pyDictGetD d "content" (PyVal.str ""), pyDictGet d "reasoning_content")
  | PyVal.list blocks =>
    match collectReasoningBlocks blocks with
    | Except.error e => Except.error e
    | Except.ok rbs =>
      match joinBlocks rbs with
      | Except.error e => Except.error e
      | Except.ok joined =>
        match findOutputText (PyVal.list blocks) blocks with
        | Except.error e => Except.error e
        | Except.ok out => Except.ok (out, PyVal.str joined)
  | m => Except.ok (m, PyVal.none)

/-- `response.get("text", "")` as a `PyVal`: the dispatch result always has
the key, holding a string or `None`. -/
def pyOfOptStr : Option String → PyVal
  | Option.none => PyVal.none
  | Option.some s => PyVal.str s

/-- The JSON payload of a successful `/chat` response (backend.py lines
313-318): the assistant message content (the stripped display message) and
the `tool_used` field.  The reasoning value computed by the normalizer is
not part of the payload. -/
structure ChatPayload where
  content : PyVal
  tool_used : Option String

/-- The final-content step (backend.py line 311) followed by payload
construction (lines 313-318): strip the resolved display message and pair
it with the dispatch tool identifier.  Takes the resolved
(message, reasoning) pair and uses only the message component, exactly as
the source does. -/
def finalize_response (resolved : PyVal × PyVal) (tool_used : Option String) : ChatPayload :=
  { content := remove_reasoning_thoughts_val resolved.1, tool_used := tool_used }

/-- The `/chat` endpoint pipeline (backend.py lines 267-318), from dispatch
to response payload; a propagating Python exception is caught by the
endpoint and turned into an HTTP 500 error body, which we keep as the
`Except.error` case. -/
def chat_pipeline (env : Env) (messages : List ChatTurn) :
    Except PyExc ChatPayload × List Effect :=
  match process_query env messages with
  | (Except.error e, t) => (Except.error e, t)
  | (Except.ok res, t) =>
    match normalize_message (pyOfOptStr res.text) with
    | Except.error e => (Except.error e, t)
    | Except.ok resolved =>
      (Except.ok (finalize_response resolved res.tool_used), t)

/-! ## The batch config loader `upload_config`

backend.py lines 324-363: iterate the uploaded server specs in order; for
each, attempt `connect_to_server` inside a `try`, recording a running
report entry on success and an error report entry on failure — the
`except` keeps the loop going, so one failure never aborts the batch.  The
report is a Python dict keyed by server name (assignment replaces, keeping
insertion position).  Connecting is subprocess/transport I/O: an external
capability, modelled as a per-spec outcome oracle. -/

/-- One server spec from the uploaded YAML config. -/
structure ServerSpec where
  name : String
  command : String
  args : List String
  cwd : String
deriving Repr, DecidableEq

/-- One report entry: the success branch records
`status="running", active=True, cwd=...`; the failure branch records
`status="error: ..."`, `active=False` and no `cwd` key. -/
structure ReportEntry where
  status : String
  active : Bool
  cwd : Option String
deriving Repr, DecidableEq

/-- The report entry the loop body produces for one spec, given the connect
outcome oracle. -/
def startOutcomeEntry (connect : ServerSpec → Except String Unit)
    (srv : ServerSpec) : ReportEntry :=
  match connect srv with
  | Except.ok _ => { status := "running", active := true, cwd := Option.some srv.cwd }
  | Except.error e => { status := "error: " ++ e, active := false, cwd := Option.none }

/-- Does the connect oracle fail on this spec? -/
def connectFails (connect : ServerSpec → Except String Unit) (srv : ServerSpec) : Bool :=
  match connect srv with
  | Except.ok _ => false
  | Except.error _ => true

/-- Python dict assignment `m[k] = v` on an insertion-ordered
association list: replace in place when the key exists, append otherwise. -/
def dictSet (m : List (String × ReportEntry)) (k : String) (v : ReportEntry) :
    List (String × ReportEntry) :=
  if m.any (fun p => p.1 == k) then
    m.map (fun p => if p.1 == k then (k, v) else p)
  else m ++ [(k, v)]

/-- The `active_servers` report built by `upload_config` (backend.py lines
336-360) over the listed specs. -/
def upload_config_report (connect : ServerSpec → Except String Unit)
    (servers : List ServerSpec) : List (String × ReportEntry) :=
  servers.foldl (fun acc srv => dictSet acc srv.name (startOutcomeEntry connect srv)) []

/-! ## Concrete environments used by witnesses and counterexamples -/

/-- A session whose catalog query raises (for the enumeration-abort
counterexample). -/
def sessionBoom : Session :=
  { listToolsResult := Except.error "boom",
    callToolResult := fun _ _ => Except.error "unused" }

/-- A healthy session exposing one tool `tool_b`. -/
def sessionB : Session :=
  { listToolsResult := Except.ok [⟨"tool_b", "descB", "schemaB"⟩],
    callToolResult := fun _ _ => Except.error "unused" }

/-- A healthy session exposing one tool `echo` that returns a structured
result. -/
def sessionEcho : Session :=
  { listToolsResult := Except.ok [⟨"echo", "echoes", "schemaE"⟩],
    callToolResult := fun _ args =>
      Except.ok ⟨Option.some [("result", "echoed " ++ args)], "raw"⟩ }

/-- Environment for the unknown-server counterexample: the Phase-1 reply
requests `srvX:toolY` with a malformed argument payload, and no server is
connected. -/
def envUnknownSrv : Env :=
  { sessions := [],
    activeTruthy := fun _ => false,
    jsonLoads := fun _ => Except.error "Expecting value: line 1 column 1 (char 0)",
    phase1 := { content := Option.none,
                tool_calls := [{ function := { name := "srvX:toolY", arguments := "oops" } }] },
    phase2Content := fun _ => Option.none }

/-- Environment for the enumeration-abort counterexample: two active
servers; the catalog query of the first raises, the second is healthy. -/
def envAbort : Env :=
  { sessions := [("s1", sessionBoom), ("s2", sessionB)],
    activeTruthy := fun _ => true,
    jsonLoads := fun s => Except.ok s,
    phase1 := { content := Option.some "hi", tool_calls := [] },
    phase2Content := fun _ => Option.none }


/-- A direct-text environment: one connected server, a Phase-1 reply with
plain text and no tool calls. -/
def envDirect : Env :=
  { sessions := [("today", sessionEcho)],
    activeTruthy := fun _ => true,
    jsonLoads := fun s => Except.ok s,
    phase1 := { content := Option.some "Paris is the capital of France.",
                tool_calls := [] },
    phase2Content := fun _ => Option.none }

/-- An empty-reply environment: the model returns `content = None` and no
tool calls. -/
def envEmptyReply : Env :=
  { sessions := [("today", sessionEcho)],
    activeTruthy := fun _ => true,
    jsonLoads := fun s => Except.ok s,
    phase1 := { content := Option.none, tool_calls := [] },
    phase2Content := fun _ => Option.none }

/-- A valid-tool-call environment: the Phase-1 reply requests `today:echo`
with payload `"q"`; the Phase-2 reply echoes its prompt back, so the
witness can observe exactly what Phase 2 was asked. -/
def envToolCall : Env :=
  { sessions := [("today", sessionEcho)],
    activeTruthy := fun _ => true,
    jsonLoads := fun s => Except.ok s,
    phase1 := { content := Option.none,
                tool_calls := [{ function := { name := "today:echo", arguments := "q" } }] },
    phase2Content := fun prompt => Option.some ("summary of: " ++ prompt) }

/-- Environment whose Phase-1 reply names the unconnected server `srvX`
with a well-formed payload. -/
def envUnknownSrvOk : Env :=
  { sessions := [("today", sessionEcho)],
    activeTruthy := fun _ => true,
    jsonLoads := fun s => Except.ok s,
    phase1 := { content := Option.none,
                tool_calls := [{ function := { name := "srvX:toolY", arguments := "p" } }] },
    phase2Content := fun _ => Option.none }

/-- A Phase-1 reply with two tool invocation requests. -/
def envMultiTool : Env :=
  { sessions := [("today", sessionEcho)],
    activeTruthy := fun _ => true,
    jsonLoads := fun s => Except.ok s,
    phase1 := { content := Option.none,
                tool_calls := [⟨⟨"today:echo", "q1"⟩⟩, ⟨⟨"other:tool", "q2"⟩⟩] },
    phase2Content := fun prompt => Option.some prompt }

/-- A Phase-1 reply carrying both direct text and a tool call. -/
def envTextAndTool : Env :=
  { sessions := [("today", sessionEcho)],
    activeTruthy := fun _ => true,
    jsonLoads := fun s => Except.ok s,
    phase1 := { content := Option.some "direct answer",
                tool_calls := [{ function := { name := "today:echo", arguments := "q" } }] },
    phase2Content := fun prompt => Option.some ("summary of: " ++ prompt) }

/-! # Theorems -/


/-! ## Helper lemmas -/

/-- Splitting at the first separator undoes formatting when the part before
the separator is separator-free. -/
theorem splitFirstColonList_roundtrip (a b : List Char)
    (h : a.all (fun c => c != ':') = true) :
    splitFirstColonList (a ++ ':' :: b) = Option.some (a, b) := by
  induction a with
  | nil => simp [splitFirstColonList]
  | cons c cs ih =>
    simp only [List.all_cons, Bool.and_eq_true, bne_iff_ne, ne_eq] at h
    simp [splitFirstColonList, h.1, ih h.2]

/-! ## C7: namespaced tool identifiers round-trip -/

/-- C7: for every server name not containing the separator `:` and every
tool name (which may itself contain the separator), formatting the
namespaced identifier and parsing it back by splitting on the first
separator recovers exactly the original pair. -/
theorem tool_id_roundtrip (server tool : String)
    (h : server.data.all (fun c => c != ':') = true) :
    splitToolId (formatToolId server tool) = Except.ok (server, tool) := by
  unfold splitToolId formatToolId
  have hdata : (server ++ ":" ++ tool).data = server.data ++ ':' :: tool.data := by
    simp [String.data_append]
  rw [hdata, splitFirstColonList_roundtrip server.data tool.data h]

/-- Witness for C7 at a concrete input whose tool name itself contains the
separator. -/
theorem tool_id_roundtrip_witness :
    ("todayinfo".data.all (fun c => c != ':') = true) ∧
    splitToolId (formatToolId "todayinfo" "get:time") =
      Except.ok ("todayinfo", "get:time") :=
  ⟨by decide, tool_id_roundtrip "todayinfo" "get:time" (by decide)⟩

/-! ## C1: batch config load has partial-failure semantics -/

/-- The failure branch never changes the entry status of another spec: each
report entry is this spec name with its own outcome. -/
theorem startOutcomeEntry_not_active_iff (connect : ServerSpec → Except String Unit)
    (srv : ServerSpec) :
    (!(startOutcomeEntry connect srv).active) = connectFails connect srv := by
  unfold startOutcomeEntry connectFails
  cases connect srv <;> rfl

/-- `dictSet` with a fresh key appends. -/
theorem dictSet_fresh (m : List (String × ReportEntry)) (k : String) (v : ReportEntry)
    (h : ∀ p ∈ m, p.1 ≠ k) : dictSet m k v = m ++ [(k, v)] := by
  unfold dictSet
  rw [if_neg]
  simp only [List.any_eq_true, beq_iff_eq, not_exists, not_and]
  intro p hp
  exact h p hp

/-- With pairwise-distinct spec names, the report fold is an append of one
entry per spec, in order. -/
theorem upload_report_go (connect : ServerSpec → Except String Unit)
    (servers : List ServerSpec) (acc : List (String × ReportEntry))
    (hdisj : ∀ srv ∈ servers, ∀ p ∈ acc, p.1 ≠ srv.name)
    (hnd : (servers.map (fun s => s.name)).Nodup) :
    servers.foldl (fun a srv => dictSet a srv.name (startOutcomeEntry connect srv)) acc =
      acc ++ servers.map (fun srv => (srv.name, startOutcomeEntry connect srv)) := by
  induction servers generalizing acc with
  | nil => simp
  | cons srv rest ih =>
    simp only [List.map_cons, List.nodup_cons, List.mem_map] at hnd
    simp only [List.foldl_cons]
    rw [dictSet_fresh acc srv.name _ (fun p hp => hdisj srv (List.mem_cons_self srv rest) p hp)]
    rw [ih (acc ++ [(srv.name, startOutcomeEntry connect srv)]) ?_ hnd.2]
    · simp
    · intro s hs p hp
      rcases List.mem_append.mp hp with hp1 | hp2
      · exact hdisj s (List.mem_cons_of_mem srv hs) p hp1
      · rcases List.mem_singleton.mp hp2 with rfl
        intro hEq
        exact hnd.1 ⟨s, hs, hEq.symm⟩

/-- The whole report equals the per-spec outcome map when names are
distinct. -/
theorem upload_report_eq_map (connect : ServerSpec → Except String Unit)
    (servers : List ServerSpec)
    (hnd : (servers.map (fun s => s.name)).Nodup) :
    upload_config_report connect servers =
      servers.map (fun srv => (srv.name, startOutcomeEntry connect srv)) := by
  unfold upload_config_report
  rw [upload_report_go connect servers [] (by simp) hnd]
  simp

/-- C1: for a config of N specs with distinct names of which K fail to
start, the aggregate report has exactly N keys, exactly K failed
(`active = False`) entries and N-K running entries, and every spec gets its
own entry regardless of the outcome of the others (no failure aborts the
batch). -/
theorem upload_config_partial_failure (connect : ServerSpec → Except String Unit)
    (servers : List ServerSpec)
    (hnd : (servers.map (fun s => s.name)).Nodup) :
    (upload_config_report connect servers).length = servers.length ∧
    (upload_config_report connect servers).countP (fun p => !p.2.active) =
      servers.countP (fun srv => connectFails connect srv) ∧
    (upload_config_report connect servers).countP (fun p => p.2.active) =
      servers.length - servers.countP (fun srv => connectFails connect srv) ∧
    ∀ srv ∈ servers,
      (srv.name, startOutcomeEntry connect srv) ∈ upload_config_report connect servers := by
  rw [upload_report_eq_map connect servers hnd]
  refine ⟨by simp, ?_, ?_, ?_⟩
  · rw [List.countP_map]
    exact List.countP_congr (fun srv _ => by
      simp only [Function.comp]
      rw [startOutcomeEntry_not_active_iff connect srv])
  · rw [List.countP_map]
    have h1 : servers.countP
        ((fun p : String × ReportEntry => p.2.active) ∘
          (fun srv => (srv.name, startOutcomeEntry connect srv))) =
        servers.countP (fun srv => !connectFails connect srv) := by
      exact List.countP_congr (fun srv _ => by
        simp only [Function.comp]
        rw [← Bool.not_not ((startOutcomeEntry connect srv).active),
          startOutcomeEntry_not_active_iff connect srv])
    rw [h1]
    have h2 := List.length_eq_countP_add_countP (fun srv => connectFails connect srv) servers
    have h3 : servers.countP (fun srv => !connectFails connect srv) =
        servers.countP (fun srv => ¬ connectFails connect srv = true) := by
      exact List.countP_congr (fun srv _ => by
        cases h : connectFails connect srv <;> simp [h])
    omega
  · intro srv hs
    exact List.mem_map_of_mem _ hs

/-- Witness for C1: three specs with distinct names, the middle one failing
to start: the report has 3 keys, 1 failed entry and 2 running entries. -/
theorem upload_config_partial_failure_witness :
    (([⟨"a", "cmd", [], "/a"⟩, ⟨"b", "cmd", [], "/b"⟩, ⟨"c", "cmd", [], "/c"⟩] :
        List ServerSpec).map (fun s => s.name)).Nodup ∧
    ((upload_config_report
        (fun srv => if srv.name = "b" then Except.error "spawn failed" else Except.ok ())
        [⟨"a", "cmd", [], "/a"⟩, ⟨"b", "cmd", [], "/b"⟩, ⟨"c", "cmd", [], "/c"⟩]).length = 3 ∧
      (upload_config_report
        (fun srv => if srv.name = "b" then Except.error "spawn failed" else Except.ok ())
        [⟨"a", "cmd", [], "/a"⟩, ⟨"b", "cmd", [], "/b"⟩, ⟨"c", "cmd", [], "/c"⟩]).countP
          (fun p => !p.2.active) = 1) := by
  constructor
  · decide
  · have h := upload_config_partial_failure
      (fun srv => if srv.name = "b" then Except.error "spawn failed" else Except.ok ())
      [⟨"a", "cmd", [], "/a"⟩, ⟨"b", "cmd", [], "/b"⟩, ⟨"c", "cmd", [], "/c"⟩]
      (by decide)
    refine ⟨by simpa using h.1, ?_⟩
    have h2 := h.2.1
    rw [h2]
    decide

/-! ## C2: direct-text Phase-1 reply terminates immediately -/

/-- A dispatch-result text (a string or `None`) resolves through the
normalizer unchanged, with no reasoning value. -/
theorem normalize_optStr (t : Option String) :
    normalize_message (pyOfOptStr t) = Except.ok (pyOfOptStr t, PyVal.none) := by
  cases t <;> rfl

/-- C2: when the Phase-1 reply carries truthy direct text and no tool
invocation, the dispatch returns that text with no tool used, the chat
pipeline returns it after reasoning-marker stripping, the trace holds
exactly one model call (Phase 1, the caller turns plus the synthetic system
turn, with the schema attached), and no tool is ever invoked. -/
theorem dispatch_direct_text (env : Env) (messages : List ChatTurn) (ts : List FunctionSpec)
    (hschema : availableTools env = Except.ok ts)
    (hcontent : contentTruthy env.phase1.content = true)
    (hnotool : env.phase1.tool_calls = []) :
    process_query env messages =
      (Except.ok { text := env.phase1.content, tool_used := Option.none },
       [Effect.modelCall (messages ++ [systemTurn]) (Option.some ts)]) ∧
    chat_pipeline env messages =
      (Except.ok { content := remove_reasoning_thoughts_val (pyOfOptStr env.phase1.content),
                   tool_used := Option.none },
       [Effect.modelCall (messages ++ [systemTurn]) (Option.some ts)]) ∧
    ((process_query env messages).2.countP Effect.isModelCall) = 1 ∧
    ((process_query env messages).2.countP Effect.isToolInvoke) = 0 := by
  have h1 : process_query env messages =
      (Except.ok { text := env.phase1.content, tool_used := Option.none },
       [Effect.modelCall (messages ++ [systemTurn]) (Option.some ts)]) := by
    unfold process_query
    rw [hschema]
    simp [hnotool, hcontent]
  refine ⟨h1, ?_, ?_, ?_⟩
  · unfold chat_pipeline
    rw [h1]
    simp [normalize_optStr, finalize_response]
  · rw [h1]
    simp [Effect.isModelCall]
  · rw [h1]
    simp [Effect.isToolInvoke]

/-- Witness for C2 at the concrete direct-text environment. -/
theorem dispatch_direct_text_witness :
    (availableTools envDirect = Except.ok [⟨"today:echo", "echoes", "schemaE"⟩] ∧
     contentTruthy envDirect.phase1.content = true ∧
     envDirect.phase1.tool_calls = []) ∧
    process_query envDirect [{ role := "user", content := "capital of France?" }] =
      (Except.ok { text := Option.some "Paris is the capital of France.",
                   tool_used := Option.none },
       [Effect.modelCall ([{ role := "user", content := "capital of France?" }] ++ [systemTurn])
          (Option.some [⟨"today:echo", "echoes", "schemaE"⟩])]) := by
  refine ⟨⟨rfl, rfl, rfl⟩, ?_⟩
  exact (dispatch_direct_text envDirect
    [{ role := "user", content := "capital of France?" }]
    [⟨"today:echo", "echoes", "schemaE"⟩] rfl rfl rfl).1

/-! ## C9: empty Phase-1 reply yields the degenerate terminal result -/

/-- C9: when the Phase-1 reply yields neither usable text nor a tool
invocation, the dispatch returns exactly the defined non-error terminal
result with text "No response from model." and no tool used. -/
theorem dispatch_no_response (env : Env) (messages : List ChatTurn) (ts : List FunctionSpec)
    (hschema : availableTools env = Except.ok ts)
    (hcontent : contentTruthy env.phase1.content = false)
    (hnotool : env.phase1.tool_calls = []) :
    process_query env messages =
      (Except.ok { text := Option.some "No response from model.", tool_used := Option.none },
       [Effect.modelCall (messages ++ [systemTurn]) (Option.some ts)]) := by
  unfold process_query
  rw [hschema]
  simp [hnotool, hcontent]

/-- Witness for C9 at the concrete empty-reply environment. -/
theorem dispatch_no_response_witness :
    (availableTools envEmptyReply = Except.ok [⟨"today:echo", "echoes", "schemaE"⟩] ∧
     contentTruthy envEmptyReply.phase1.content = false ∧
     envEmptyReply.phase1.tool_calls = []) ∧
    process_query envEmptyReply [{ role := "user", content := "hi" }] =
      (Except.ok { text := Option.some "No response from model.", tool_used := Option.none },
       [Effect.modelCall ([{ role := "user", content := "hi" }] ++ [systemTurn])
          (Option.some [⟨"today:echo", "echoes", "schemaE"⟩])]) := by
  refine ⟨⟨rfl, rfl, rfl⟩, ?_⟩
  exact dispatch_no_response envEmptyReply [{ role := "user", content := "hi" }]
    [⟨"today:echo", "echoes", "schemaE"⟩] rfl rfl rfl

/-! ## C3: valid tool call — invoke once, fresh Phase-2 call, return its reply -/

/-- C3: when the Phase-1 reply requests a tool on a connected server, the
dispatch invokes that tool exactly once, then issues a fresh single-turn
Phase-2 model call whose prompt is built from the content of the final
caller turn and the extracted tool result (and nothing of the rest of the
conversation), and returns the Phase-2 reply together with the namespaced
identifier.  The second conjunct spells the Phase-2 prompt out: it contains
the final-turn content and the tool result verbatim. -/
theorem dispatch_valid_tool_call (env : Env) (messages : List ChatTurn)
    (ts : List FunctionSpec) (tc : ToolCall) (rest : List ToolCall)
    (sn tn args : String) (session : Session) (tr : ToolResult) (lastTurn : ChatTurn)
    (hschema : availableTools env = Except.ok ts)
    (htc : env.phase1.tool_calls = tc :: rest)
    (hsplit : splitToolId tc.function.name = Except.ok (sn, tn))
    (hjson : env.jsonLoads tc.function.arguments = Except.ok args)
    (hsess : getSession env sn = Option.some session)
    (hcall : session.callToolResult tn args = Except.ok tr)
    (hlast : messages.getLast? = Option.some lastTurn) :
    process_query env messages =
      (Except.ok { text := env.phase2Content (finalPrompt lastTurn.content (extractResult tr)),
                   tool_used := Option.some (formatToolId sn tn) },
       [Effect.modelCall (messages ++ [systemTurn]) (Option.some ts),
        Effect.toolInvoke sn tn args,
        Effect.modelCall
          [{ role := "user", content := finalPrompt lastTurn.content (extractResult tr) }]
          Option.none]) ∧
    finalPrompt lastTurn.content (extractResult tr) =
      "\n            The user asked: \"" ++ lastTurn.content ++
      "\"\n            The tool returned: \"" ++ extractResult tr ++
      "\"\n            Please summarize and respond naturally.\n            " := by
  refine ⟨?_, rfl⟩
  unfold process_query
  rw [hschema]
  simp [htc, hsplit, hjson, hsess, hcall, hlast]

/-- Witness for C3 at the concrete valid-tool-call environment. -/
theorem dispatch_valid_tool_call_witness :
    (availableTools envToolCall = Except.ok [⟨"today:echo", "echoes", "schemaE"⟩] ∧
     envToolCall.phase1.tool_calls = [{ function := { name := "today:echo", arguments := "q" } }] ∧
     splitToolId "today:echo" = Except.ok ("today", "echo") ∧
     envToolCall.jsonLoads "q" = Except.ok "q" ∧
     getSession envToolCall "today" = Option.some sessionEcho ∧
     sessionEcho.callToolResult "echo" "q" =
       Except.ok ⟨Option.some [("result", "echoed q")], "raw"⟩ ∧
     ([{ role := "user", content := "ask" }] : List ChatTurn).getLast? =
       Option.some { role := "user", content := "ask" }) ∧
    process_query envToolCall [{ role := "user", content := "ask" }] =
      (Except.ok { text := Option.some ("summary of: " ++ finalPrompt "ask" "echoed q"),
                   tool_used := Option.some "today:echo" },
       [Effect.modelCall ([{ role := "user", content := "ask" }] ++ [systemTurn])
          (Option.some [⟨"today:echo", "echoes", "schemaE"⟩]),
        Effect.toolInvoke "today" "echo" "q",
        Effect.modelCall [{ role := "user", content := finalPrompt "ask" "echoed q" }]
          Option.none]) := by
  refine ⟨⟨rfl, rfl, rfl, rfl, rfl, rfl, rfl⟩, ?_⟩
  exact (dispatch_valid_tool_call envToolCall [{ role := "user", content := "ask" }]
    [⟨"today:echo", "echoes", "schemaE"⟩]
    { function := { name := "today:echo", arguments := "q" } } []
    "today" "echo" "q" sessionEcho ⟨Option.some [("result", "echoed q")], "raw"⟩
    { role := "user", content := "ask" }
    rfl rfl rfl rfl rfl rfl rfl).1

/-! ## C4: unknown server in a tool call -/

/-- Counterexample to C4 as stated: with a malformed argument payload, a
tool call naming an unconnected server does *not* surface the
unknown-server error result — `json.loads` is executed before the server
lookup (backend.py line 142 before line 146), so the dispatch raises the
JSON-decode error instead (surfaced upstream as an HTTP 500 error body,
not as a dispatch result). -/
theorem dispatch_unknown_server_counterexample :
    (process_query envUnknownSrv [{ role := "user", content := "hi" }]).1 =
      Except.error (PyExc.jsonDecodeError "Expecting value: line 1 column 1 (char 0)") ∧
    (process_query envUnknownSrv [{ role := "user", content := "hi" }]).1 ≠
      Except.ok { text := Option.some (serverNotConnectedText "srvX"),
                  tool_used := Option.none } := by
  constructor
  · rfl
  · intro h
    rw [show (process_query envUnknownSrv [{ role := "user", content := "hi" }]).1 =
        Except.error (PyExc.jsonDecodeError "Expecting value: line 1 column 1 (char 0)")
      from rfl] at h
    exact Except.noConfusion h

/-- C4 as amended: when the first tool invocation names a server with no
session handle *and its argument payload parses successfully*, the dispatch
returns the unknown-server error result (a normal result, not a raised
exception), never invokes any tool, and never reaches the Phase-2 model
call; with a malformed payload the dispatch instead raises the JSON-decode
error before the server lookup — in both cases the trace holds only the
Phase-1 model call. -/
theorem dispatch_unknown_server (env : Env) (messages : List ChatTurn)
    (ts : List FunctionSpec) (tc : ToolCall) (rest : List ToolCall) (sn tn : String)
    (hschema : availableTools env = Except.ok ts)
    (htc : env.phase1.tool_calls = tc :: rest)
    (hsplit : splitToolId tc.function.name = Except.ok (sn, tn))
    (hnosession : getSession env sn = Option.none) :
    (∀ args, env.jsonLoads tc.function.arguments = Except.ok args →
      process_query env messages =
        (Except.ok { text := Option.some (serverNotConnectedText sn),
                     tool_used := Option.none },
         [Effect.modelCall (messages ++ [systemTurn]) (Option.some ts)])) ∧
    (∀ e, env.jsonLoads tc.function.arguments = Except.error e →
      process_query env messages =
        (Except.error (PyExc.jsonDecodeError e),
         [Effect.modelCall (messages ++ [systemTurn]) (Option.some ts)])) := by
  constructor
  · intro args hjson
    unfold process_query
    rw [hschema]
    simp [htc, hsplit, hjson, hnosession]
  · intro e hjson
    unfold process_query
    rw [hschema]
    simp [htc, hsplit, hjson]

/-- Witness for the amended C4 at a concrete environment: the dispatch
returns the unknown-server error result and the trace holds no tool
invocation and no Phase-2 call. -/
theorem dispatch_unknown_server_witness :
    (availableTools envUnknownSrvOk = Except.ok [⟨"today:echo", "echoes", "schemaE"⟩] ∧
     envUnknownSrvOk.phase1.tool_calls =
       [{ function := { name := "srvX:toolY", arguments := "p" } }] ∧
     splitToolId "srvX:toolY" = Except.ok ("srvX", "toolY") ∧
     getSession envUnknownSrvOk "srvX" = Option.none ∧
     envUnknownSrvOk.jsonLoads "p" = Except.ok "p") ∧
    process_query envUnknownSrvOk [{ role := "user", content := "hi" }] =
      (Except.ok { text := Option.some (serverNotConnectedText "srvX"),
                   tool_used := Option.none },
       [Effect.modelCall ([{ role := "user", content := "hi" }] ++ [systemTurn])
          (Option.some [⟨"today:echo", "echoes", "schemaE"⟩])]) := by
  refine ⟨⟨rfl, rfl, rfl, rfl, rfl⟩, ?_⟩
  exact (dispatch_unknown_server envUnknownSrvOk [{ role := "user", content := "hi" }]
    [⟨"today:echo", "echoes", "schemaE"⟩]
    { function := { name := "srvX:toolY", arguments := "p" } } []
    "srvX" "toolY" rfl rfl rfl rfl).1 "p" rfl

/-! ## C6: only the first tool invocation of the reply is taken -/

/-- C6: when the Phase-1 reply holds several tool invocation requests, the
dispatch depends only on the first one — replacing the reply by one holding
just the head tool call changes nothing — the trace holds at most one tool
invocation, and any invoked tool is the parsed head call. -/
theorem dispatch_first_tool_only (env : Env) (messages : List ChatTurn)
    (tc : ToolCall) (rest : List ToolCall)
    (htc : env.phase1.tool_calls = tc :: rest) :
    process_query env messages =
      process_query
        { env with phase1 := { content := env.phase1.content, tool_calls := [tc] } }
        messages ∧
    ((process_query env messages).2.filter Effect.isToolInvoke).length ≤ 1 ∧
    (∀ sn tn args, Effect.toolInvoke sn tn args ∈ (process_query env messages).2 →
      splitToolId tc.function.name = Except.ok (sn, tn) ∧
      env.jsonLoads tc.function.arguments = Except.ok args) := by
  have hav : availableTools
      { env with phase1 := { content := env.phase1.content, tool_calls := [tc] } } =
      availableTools env := rfl
  constructor
  · unfold process_query
    rw [hav]
    cases hb : availableTools env with
    | error e => rfl
    | ok ts => simp [htc, getSession]
  · unfold process_query
    cases hb : availableTools env with
    | error e => simp [Effect.isToolInvoke]
    | ok ts =>
      simp only [htc, List.isEmpty_cons, Bool.and_false, Bool.false_eq_true, if_false]
      cases hsp : splitToolId tc.function.name with
      | error e => simp [Effect.isToolInvoke]
      | ok p =>
        obtain ⟨sn, tn⟩ := p
        simp only [hsp]
        cases hj : env.jsonLoads tc.function.arguments with
        | error e => simp [Effect.isToolInvoke]
        | ok args =>
          simp only [hj]
          cases hs : getSession env sn with
          | none => simp [hs, Effect.isToolInvoke]
          | some session =>
            simp only [hs]
            cases hc : session.callToolResult tn args with
            | error e =>
              simp only [hc]
              refine ⟨by simp [Effect.isToolInvoke], ?_⟩
              intro sn' tn' args' hmem
              simp [Effect.isToolInvoke] at hmem
              obtain ⟨h1, h2, h3⟩ := hmem
              subst h1; subst h2; subst h3
              exact ⟨rfl, rfl⟩
            | ok tr =>
              simp only [hc]
              cases hl : messages.getLast? with
              | none =>
                simp only [hl]
                refine ⟨by simp [Effect.isToolInvoke], ?_⟩
                intro sn' tn' args' hmem
                simp [Effect.isToolInvoke] at hmem
                obtain ⟨h1, h2, h3⟩ := hmem
                subst h1; subst h2; subst h3
                exact ⟨rfl, rfl⟩
              | some lastTurn =>
                simp only [hl]
                refine ⟨by simp [Effect.isToolInvoke], ?_⟩
                intro sn' tn' args' hmem
                simp [Effect.isToolInvoke] at hmem
                obtain ⟨h1, h2, h3⟩ := hmem
                subst h1; subst h2; subst h3
                exact ⟨rfl, rfl⟩

/-- Witness for C6 at a reply with a second, parallel tool call: the result
equals that of the reply truncated to the head call, and at most one tool
is invoked. -/
theorem dispatch_first_tool_only_witness :
    envMultiTool.phase1.tool_calls =
      { function := { name := "today:echo", arguments := "q1" } } ::
        [{ function := { name := "other:tool", arguments := "q2" } }] ∧
    process_query envMultiTool [{ role := "user", content := "ask" }] =
      process_query
        { envMultiTool with
          phase1 := ⟨envMultiTool.phase1.content, [⟨⟨"today:echo", "q1"⟩⟩]⟩ }
        [{ role := "user", content := "ask" }] ∧
    ((process_query envMultiTool
        [{ role := "user", content := "ask" }]).2.filter Effect.isToolInvoke).length ≤ 1 := by
  refine ⟨rfl, ?_, ?_⟩
  · exact (dispatch_first_tool_only envMultiTool [{ role := "user", content := "ask" }]
      { function := { name := "today:echo", arguments := "q1" } }
      [{ function := { name := "other:tool", arguments := "q2" } }] rfl).1
  · exact (dispatch_first_tool_only envMultiTool [{ role := "user", content := "ask" }]
      { function := { name := "today:echo", arguments := "q1" } }
      [{ function := { name := "other:tool", arguments := "q2" } }] rfl).2.1

/-! ## C10: text plus tool call — the tool branch wins, the text is discarded -/

/-- C10: when the Phase-1 reply carries both truthy direct text and a tool
invocation request, the dispatch takes the tool branch: the result text is
the Phase-2 reply to the summarization prompt, and the Phase-1 text plays
no role — replacing it by any other value leaves the dispatch outcome
unchanged. -/
theorem dispatch_text_and_tool (env : Env) (messages : List ChatTurn)
    (ts : List FunctionSpec) (tc : ToolCall) (rest : List ToolCall)
    (sn tn args : String) (session : Session) (tr : ToolResult) (lastTurn : ChatTurn)
    (hcontent : contentTruthy env.phase1.content = true)
    (hschema : availableTools env = Except.ok ts)
    (htc : env.phase1.tool_calls = tc :: rest)
    (hsplit : splitToolId tc.function.name = Except.ok (sn, tn))
    (hjson : env.jsonLoads tc.function.arguments = Except.ok args)
    (hsess : getSession env sn = Option.some session)
    (hcall : session.callToolResult tn args = Except.ok tr)
    (hlast : messages.getLast? = Option.some lastTurn) :
    process_query env messages =
      (Except.ok { text := env.phase2Content (finalPrompt lastTurn.content (extractResult tr)),
                   tool_used := Option.some (formatToolId sn tn) },
       [Effect.modelCall (messages ++ [systemTurn]) (Option.some ts),
        Effect.toolInvoke sn tn args,
        Effect.modelCall
          [{ role := "user", content := finalPrompt lastTurn.content (extractResult tr) }]
          Option.none]) ∧
    (∀ c', process_query
        { env with phase1 := { content := c', tool_calls := env.phase1.tool_calls } }
        messages = process_query env messages) := by
  constructor
  · unfold process_query
    rw [hschema]
    simp [htc, hsplit, hjson, hsess, hcall, hlast]
  · intro c'
    have hav : availableTools
        { env with phase1 := { content := c', tool_calls := env.phase1.tool_calls } } =
        availableTools env := rfl
    unfold process_query
    rw [hav]
    cases hb : availableTools env with
    | error e => rfl
    | ok ts' => simp [htc, getSession]

/-- Witness for C10: with both text and a tool call present, the result
text is the Phase-2 reply, not the Phase-1 text. -/
theorem dispatch_text_and_tool_witness :
    (contentTruthy envTextAndTool.phase1.content = true ∧
     envTextAndTool.phase1.tool_calls =
       [{ function := { name := "today:echo", arguments := "q" } }]) ∧
    process_query envTextAndTool [{ role := "user", content := "ask" }] =
      (Except.ok { text := Option.some ("summary of: " ++ finalPrompt "ask" "echoed q"),
                   tool_used := Option.some "today:echo" },
       [Effect.modelCall ([{ role := "user", content := "ask" }] ++ [systemTurn])
          (Option.some [⟨"today:echo", "echoes", "schemaE"⟩]),
        Effect.toolInvoke "today" "echo" "q",
        Effect.modelCall [{ role := "user", content := finalPrompt "ask" "echoed q" }]
          Option.none]) := by
  refine ⟨⟨rfl, rfl⟩, ?_⟩
  exact (dispatch_text_and_tool envTextAndTool [{ role := "user", content := "ask" }]
    [⟨"today:echo", "echoes", "schemaE"⟩]
    { function := { name := "today:echo", arguments := "q" } } []
    "today" "echo" "q" sessionEcho ⟨Option.some [("result", "echoed q")], "raw"⟩
    { role := "user", content := "ask" }
    rfl rfl rfl rfl rfl rfl rfl rfl).1

/-! ## C5: a catalog query failure during enumeration -/

/-- Counterexample to C5 as stated: with two active servers whose first
catalog query raises, both `list_all_tools` and the per-dispatch schema
build abort with the exception — the second server is not skipped-over and
its tool `tool_b` does not appear anywhere; the dispatch aborts before
Phase 1. -/
theorem registry_skip_continue_counterexample :
    list_all_tools envAbort = Except.error (PyExc.listToolsError "s1" "boom") ∧
    availableTools envAbort = Except.error (PyExc.listToolsError "s1" "boom") ∧
    process_query envAbort [{ role := "user", content := "hi" }] =
      (Except.error (PyExc.listToolsError "s1" "boom"), []) ∧
    list_all_tools envAbort ≠ Except.ok [⟨"s2", "tool_b", "descB"⟩] := by
  refine ⟨rfl, rfl, rfl, ?_⟩
  intro h
  rw [show list_all_tools envAbort = Except.error (PyExc.listToolsError "s1" "boom")
    from rfl] at h
  exact Except.noConfusion h

/-- A raising catalog query at any position aborts `list_all_tools`:
everything after the failing handle is dropped and the error propagates. -/
theorem listAllToolsGo_append_error (active : String → Bool)
    (pre post : List (String × Session)) (n : String) (s : Session) (m : String)
    (ts : List ToolDescriptor)
    (hpre : listAllToolsGo active pre = Except.ok ts)
    (hact : active n = true)
    (herr : s.listToolsResult = Except.error m) :
    listAllToolsGo active (pre ++ (n, s) :: post) =
      Except.error (PyExc.listToolsError n m) := by
  induction pre generalizing ts with
  | nil => simp [listAllToolsGo, hact, herr]
  | cons p pre ih =>
    obtain ⟨k, t⟩ := p
    simp only [List.cons_append, List.append_eq, listAllToolsGo] at hpre ⊢
    by_cases hk : active k = true
    · simp only [hk, if_true] at hpre ⊢
      cases ht : t.listToolsResult with
      | error e => rw [ht] at hpre; simp at hpre
      | ok tools =>
        cases hgo : listAllToolsGo active pre with
        | error e => rw [ht, hgo] at hpre; simp at hpre
        | ok r => rw [ih r hgo]
    · simp only [hk, if_false] at hpre ⊢
      exact ih ts hpre

/-- Same abort behaviour for the per-dispatch schema build. -/
theorem buildSchemaGo_append_error (active : String → Bool)
    (pre post : List (String × Session)) (n : String) (s : Session) (m : String)
    (fs : List FunctionSpec)
    (hpre : buildSchemaGo active pre = Except.ok fs)
    (hact : active n = true)
    (herr : s.listToolsResult = Except.error m) :
    buildSchemaGo active (pre ++ (n, s) :: post) =
      Except.error (PyExc.listToolsError n m) := by
  induction pre generalizing fs with
  | nil => simp [buildSchemaGo, hact, herr]
  | cons p pre ih =>
    obtain ⟨k, t⟩ := p
    simp only [List.cons_append, List.append_eq, buildSchemaGo] at hpre ⊢
    by_cases hk : active k = true
    · simp only [hk, if_true] at hpre ⊢
      cases ht : t.listToolsResult with
      | error e => rw [ht] at hpre; simp at hpre
      | ok tools =>
        cases hgo : buildSchemaGo active pre with
        | error e => rw [ht, hgo] at hpre; simp at hpre
        | ok r => rw [ih r hgo]
    · simp only [hk, if_false] at hpre ⊢
      exact ih fs hpre

/-- C5 as amended: a catalog query failure on one active handle does *not*
get skipped — it aborts the whole enumeration.  If the handles before the
failing one enumerate fine, the failing active handle turns both
`list_all_tools` and the dispatch into the propagated error: the handles
after it are never queried, their tools appear nowhere, and the dispatch
ends with an empty trace (Phase 1 is never reached).  Only handles whose
active flag is falsy are skipped-and-continued. -/
theorem tool_enumeration_failure_aborts (env : Env) (messages : List ChatTurn)
    (pre post : List (String × Session)) (n : String) (s : Session) (m : String)
    (ts : List ToolDescriptor) (fs : List FunctionSpec)
    (hsess : env.sessions = pre ++ (n, s) :: post)
    (hpre1 : listAllToolsGo env.activeTruthy pre = Except.ok ts)
    (hpre2 : buildSchemaGo env.activeTruthy pre = Except.ok fs)
    (hact : env.activeTruthy n = true)
    (herr : s.listToolsResult = Except.error m) :
    list_all_tools env = Except.error (PyExc.listToolsError n m) ∧
    process_query env messages = (Except.error (PyExc.listToolsError n m), []) := by
  have h2 : availableTools env = Except.error (PyExc.listToolsError n m) := by
    unfold availableTools
    rw [hsess]
    exact buildSchemaGo_append_error env.activeTruthy pre post n s m fs hpre2 hact herr
  refine ⟨?_, ?_⟩
  · unfold list_all_tools
    rw [hsess]
    exact listAllToolsGo_append_error env.activeTruthy pre post n s m ts hpre1 hact herr
  · unfold process_query
    rw [h2]

/-- Witness for the amended C5 at the concrete two-server environment. -/
theorem tool_enumeration_failure_aborts_witness :
    (envAbort.sessions = [] ++ ("s1", sessionBoom) :: [("s2", sessionB)] ∧
     envAbort.activeTruthy "s1" = true ∧
     sessionBoom.listToolsResult = Except.error "boom") ∧
    list_all_tools envAbort = Except.error (PyExc.listToolsError "s1" "boom") := by
  refine ⟨⟨rfl, rfl, rfl⟩, ?_⟩
  exact (tool_enumeration_failure_aborts envAbort [] [] [("s2", sessionB)]
    "s1" sessionBoom "boom" [] [] rfl rfl rfl rfl rfl).1

/-! ## C8: the response normalizer on a mapping-shaped message -/

/-- C8: on a mapping-shaped message the normalizer takes `reasoning_content`
as the reasoning value and `content` as the display message; the payload
step strips the display message unconditionally and ignores the reasoning
value entirely; on the concrete mapping with content "hello" and reasoning
"because" the returned display text is exactly "hello". -/
theorem normalizer_mapping_shape :
    normalize_message (PyVal.dict
        [("content", PyVal.str "hello"), ("reasoning_content", PyVal.str "because")]) =
      Except.ok (PyVal.str "hello", PyVal.str "because") ∧
    (∀ m r tu, finalize_response (m, r) tu =
      { content := remove_reasoning_thoughts_val m, tool_used := tu }) ∧
    (∀ m r r' tu, finalize_response (m, r) tu = finalize_response (m, r') tu) ∧
    (finalize_response (PyVal.str "hello", PyVal.str "because") Option.none).content =
      PyVal.str "hello" := by
  refine ⟨rfl, fun m r tu => rfl, fun m r r' tu => rfl, ?_⟩
  show PyVal.str (remove_reasoning_thoughts "hello") = PyVal.str "hello"
  rfl
